import Mathlib

/-!
Shallow embedding of the playback-info resolution subsystem of the
my-cinema repository (src/server/src/services/mediaService.ts and the
client-side media service in src/unnamed/part_002), together with
theorems settling the frozen claims about it.

The embedding mirrors the TypeScript source: JavaScript falsy semantics
on strings and numbers are modelled explicitly, external collaborators
(Radarr, Sonarr, the ffprobe tool) are passed in as environments, and
Promise-returning functions that resolve to `T | null` become functions
into `Option T`.
-/

namespace MyCinema

/-! ## JS helper semantics -/

/-- Models the JavaScript expression `v || d` for an optional string `v`:
the empty string and a missing value are falsy. -/
def jsOrStr (v : Option String) (d : String) : String :=
  match v with
  | some s => if s = "" then d else s
  | none => d

/-- Models the JavaScript expression `v || d` for an optional number `v`:
zero and a missing value are falsy. -/
def jsOrNat (v : Option Nat) (d : Nat) : Nat :=
  match v with
  | some n => if n = 0 then d else n
  | none => d

/-- Models JavaScript `String.prototype.toLowerCase` on the ASCII codec
identifiers ffprobe emits (A-Z mapped to a-z, all else unchanged). -/
def toLowerCase (s : String) : String :=
  String.mk (s.data.map Char.toLower)

/-- Digit run to a natural number (helper for the numeric-parse models). -/
def digitsToNat (ds : List Char) : Nat :=
  ds.foldl (fun n c => n * 10 + (c.toNat - 48)) 0

/-- Models the JavaScript expression `parseInt(s) || 0` on the
non-negative decimal strings ffprobe emits for sizes: the longest leading
digit run, and 0 when there is none (NaN is falsy). -/
def parseIntOr0 (s : String) : Nat :=
  let ds := s.data.takeWhile Char.isDigit
  if ds = [] then 0 else digitsToNat ds

/-- Models `Math.floor(parseFloat(s) * 1000) || 0`-style millisecond
conversion the source performs on ffprobe's decimal duration strings,
computed exactly on decimal notation (no claim depends on duration). -/
def parseDurationMs (s : String) : Nat :=
  let intPart := s.data.takeWhile Char.isDigit
  let rest := s.data.drop intPart.length
  let fracPart :=
    match rest with
    | '.' :: r => r.takeWhile Char.isDigit
    | _ => []
  if intPart = [] then 0
  else digitsToNat intPart * 1000 + digitsToNat ((fracPart ++ ['0', '0', '0']).take 3)

/-- Unreserved bytes of JavaScript `encodeURIComponent`: ASCII letters,
digits, and - _ . ! ~ * ( ) and the apostrophe (byte 39). -/
def isUriUnreserved (b : Nat) : Bool :=
  (65 ≤ b && b ≤ 90) || (97 ≤ b && b ≤ 122) || (48 ≤ b && b ≤ 57) ||
  b = 45 || b = 95 || b = 46 || b = 33 || b = 126 || b = 42 || b = 39 || b = 40 || b = 41

/-- UTF-8 encoding of a single code point, as a list of byte values. -/
def utf8Bytes (c : Char) : List Nat :=
  let n := c.toNat
  if n < 128 then [n]
  else if n < 2048 then [192 + n / 64, 128 + n % 64]
  else if n < 65536 then [224 + n / 4096, 128 + (n / 64) % 64, 128 + n % 64]
  else [240 + n / 262144, 128 + (n / 4096) % 64, 128 + (n / 64) % 64, 128 + n % 64]

/-- Upper-case hexadecimal digit for a value below 16. -/
def hexDigit (n : Nat) : Char :=
  if n < 10 then Char.ofNat (48 + n) else Char.ofNat (55 + n)

/-- Percent-escape of one byte: the byte itself when unreserved,
"%XX" with upper-case hex otherwise. -/
def escapeByte (b : Nat) : String :=
  if isUriUnreserved b then String.singleton (Char.ofNat b)
  else String.mk ['%', hexDigit (b / 16), hexDigit (b % 16)]

/-- Models JavaScript `encodeURIComponent`: every UTF-8 byte that is not
unreserved is percent-escaped. -/
def encodeURIComponent (s : String) : String :=
  String.join (s.data.map (fun c => String.join ((utf8Bytes c).map escapeByte)))

/-! ## Node path.extname model (posix), translated from Node's source -/

/-- Scanner state of Node's `path.posix.extname` reverse scan. -/
structure ExtScan where
  startDot : Int
  startPart : Nat
  endIdx : Int
  matchedSlash : Bool
  preDotState : Int
  deriving Repr, DecidableEq

/-- Reverse scan of `path.posix.extname` over (index, char) pairs listed
from the end of the string towards the front; a slash after a non-slash
character ends the scan. -/
def extnameGo : List (Nat × Char) → ExtScan → ExtScan
  | [], st => st
  | (i, c) :: rest, st =>
    if c = '/' then
      if !st.matchedSlash then { st with startPart := i + 1 }
      else extnameGo rest st
    else
      let st1 :=
        if st.endIdx = -1 then { st with matchedSlash := false, endIdx := (i : Int) + 1 }
        else st
      let st2 :=
        if c = '.' then
          if st1.startDot = -1 then { st1 with startDot := (i : Int) }
          else if st1.preDotState ≠ 1 then { st1 with preDotState := 1 }
          else st1
        else if st1.startDot ≠ -1 then { st1 with preDotState := -1 }
        else st1
      extnameGo rest st2

/-- Models Node's `path.extname` (posix): the extension of the last path
component, from its final dot to the end, with Node's special cases
(no dot, leading dot, and the ".." component) yielding the empty string. -/
def extname (s : String) : String :=
  let st := extnameGo s.data.enum.reverse ⟨-1, 0, -1, true, 0⟩
  if st.startDot = -1 || st.endIdx = -1 || st.preDotState = 0 ||
      (st.preDotState = 1 && st.startDot = st.endIdx - 1 && st.startDot = (st.startPart : Int) + 1) then
    ""
  else
    String.mk ((s.data.drop st.startDot.toNat).take (st.endIdx.toNat - st.startDot.toNat))

/-! ## Data model from mediaService.ts -/

/-- Codec type of a probed stream (`codec_type` in the ffprobe JSON). -/
inductive CodecType where
  | video
  | audio
  | subtitle
  deriving Repr, DecidableEq

/-- Tags object of a probed stream (`tags` in the ffprobe JSON). -/
structure StreamTags where
  language : Option String
  title : Option String
  deriving Repr, DecidableEq

/-- MediaStream: one probed track, per the `MediaStream` interface.
The field `dispositionDefault` models the `disposition.default` flag
that the ffprobe JSON carries for every stream; the TypeScript interface
omits it and the code never reads it, but it is the source's marking of
a default track, which claim C3 speaks about. -/
structure MediaStream where
  index : Nat
  codec_name : String
  codec_type : CodecType
  width : Option Nat
  height : Option Nat
  channels : Option Nat
  tags : Option StreamTags
  dispositionDefault : Bool
  deriving Repr, DecidableEq

/-- MediaFormat: container-level facts, per the `MediaFormat` interface. -/
structure MediaFormat where
  filename : String
  format_name : String
  duration : String
  size : String
  deriving Repr, DecidableEq

/-- MediaInfo: the parsed ffprobe output, per the `MediaInfo` interface. -/
structure MediaInfo where
  format : MediaFormat
  streams : List MediaStream
  deriving Repr, DecidableEq

/-- SubtitleTrack of the playback contract, per the interface. -/
structure SubtitleTrack where
  id : Nat
  streamIndex : Nat
  language : String
  languageCode : String
  displayTitle : String
  format : String
  deriving Repr, DecidableEq

/-- AudioTrack of the playback contract, per the interface. -/
structure AudioTrack where
  id : Nat
  streamIndex : Nat
  language : String
  languageCode : String
  displayTitle : String
  codec : String
  channels : Nat
  selected : Bool
  deriving Repr, DecidableEq

/-- Content kind of a playback request. -/
inductive ContentType where
  | movie
  | episode
  deriving Repr, DecidableEq

/-- Summary block `mediaInfo` inside PlaybackInfo. -/
structure MediaSummary where
  width : Nat
  height : Nat
  videoCodec : String
  audioCodec : String
  container : String
  deriving Repr, DecidableEq

/-- PlaybackInfo: the contract handed to the player, per the interface. -/
structure PlaybackInfo where
  found : Bool
  title : String
  type : ContentType
  filePath : String
  fileSize : Nat
  duration : Nat
  mediaInfo : MediaSummary
  needsTranscode : Bool
  streamUrl : String
  subtitles : List SubtitleTrack
  audioTracks : List AudioTrack
  deriving Repr, DecidableEq

/-- Browser-compatible audio codecs (the fixed allow-list constant). -/
def BROWSER_COMPATIBLE_AUDIO : List String :=
  ["aac", "mp3", "opus", "vorbis", "flac", "pcm_s16le", "pcm_s24le"]

/-- Language tag of a stream, as the JS optional chain `s.tags?.language`. -/
def tagLanguage (s : MediaStream) : Option String :=
  s.tags.bind StreamTags.language

/-- Title tag of a stream, as the JS optional chain `s.tags?.title`. -/
def tagTitle (s : MediaStream) : Option String :=
  s.tags.bind StreamTags.title

/-- The source's `mediaInfo.streams.find(s => s.codec_type === 'video')`. -/
def videoStreamOf (info : MediaInfo) : Option MediaStream :=
  info.streams.find? (fun s => s.codec_type == CodecType.video)

/-- The source's `mediaInfo.streams.find(s => s.codec_type === 'audio')`. -/
def audioStreamOf (info : MediaInfo) : Option MediaStream :=
  info.streams.find? (fun s => s.codec_type == CodecType.audio)

/-- The source's `mediaInfo.streams.filter(s => s.codec_type === 'subtitle')`. -/
def subtitleStreamsOf (info : MediaInfo) : List MediaStream :=
  info.streams.filter (fun s => s.codec_type == CodecType.subtitle)

/-- The source's `mediaInfo.streams.filter(s => s.codec_type === 'audio')`. -/
def audioStreamsOf (info : MediaInfo) : List MediaStream :=
  info.streams.filter (fun s => s.codec_type == CodecType.audio)

/-- Body of the subtitle `map` in buildPlaybackInfo, applied to a
(position, stream) pair; the `subtitleIndex++` counter of the source
equals the position within the filtered subtitle list. -/
def mkSubtitleTrack (p : Nat × MediaStream) : SubtitleTrack :=
  { id := p.2.index
    streamIndex := p.1
    language := jsOrStr (tagLanguage p.2) "Unknown"
    languageCode := jsOrStr (tagLanguage p.2) "und"
    displayTitle := jsOrStr (tagTitle p.2)
      (jsOrStr (tagLanguage p.2) ("Subtitle " ++ toString (p.1 + 1)))
    format := p.2.codec_name }

/-- Body of the audio `map` in buildPlaybackInfo, applied to a
(position, stream) pair; the `audioIndex++` counter and the map's own
index `i` both equal the position within the filtered audio list. -/
def mkAudioTrack (p : Nat × MediaStream) : AudioTrack :=
  { id := p.2.index
    streamIndex := p.1
    language := jsOrStr (tagLanguage p.2) "Unknown"
    languageCode := jsOrStr (tagLanguage p.2) "und"
    displayTitle := jsOrStr (tagTitle p.2)
      (jsOrStr (tagLanguage p.2) ("Audio " ++ toString (p.1 + 1)))
    codec := p.2.codec_name
    channels := jsOrNat p.2.channels 2
    selected := p.1 == 0 }

/-- The source's `audioStream?.codec_name || 'unknown'`. -/
def audioCodecOf (info : MediaInfo) : String :=
  jsOrStr ((audioStreamOf info).map MediaStream.codec_name) "unknown"

/-- The source's
`!BROWSER_COMPATIBLE_AUDIO.includes(audioCodec.toLowerCase())`. -/
def needsTranscodeOf (info : MediaInfo) : Bool :=
  !( BROWSER_COMPATIBLE_AUDIO.contains (toLowerCase (audioCodecOf info)))

/-- The source's `path.extname(filePath).slice(1) || 'mkv'`. -/
def containerOf (filePath : String) : String :=
  jsOrStr (some ((extname filePath).drop 1)) "mkv"

/-- The source's stream URL: transcode or stream endpoint, with the file
path percent-encoded by `encodeURIComponent`. -/
def streamUrlOf (info : MediaInfo) (filePath : String) : String :=
  if needsTranscodeOf info then "/api/media/transcode/" ++ encodeURIComponent filePath
  else "/api/media/stream/" ++ encodeURIComponent filePath

/-- MediaService.buildPlaybackInfo, translated line by line with the
source's local constants as the named definitions above; the result of
`this.probeFile(filePath)` is passed in as `probeResult` since probing is
an external effect. Returns `none` exactly where the source returns
`null`. -/
def buildPlaybackInfo (probeResult : Option MediaInfo) (filePath title : String)
    (type : ContentType) : Option PlaybackInfo :=
  match probeResult with
  | none => none
  | some mediaInfo =>
    match videoStreamOf mediaInfo with
    | none => none
    | some videoStream =>
      some
        { found := true
          title := title
          type := type
          filePath := filePath
          fileSize := parseIntOr0 mediaInfo.format.size
          duration := parseDurationMs mediaInfo.format.duration
          mediaInfo :=
            { width := jsOrNat videoStream.width 0
              height := jsOrNat videoStream.height 0
              videoCodec := videoStream.codec_name
              audioCodec := audioCodecOf mediaInfo
              container := containerOf filePath }
          needsTranscode := needsTranscodeOf mediaInfo
          streamUrl := streamUrlOf mediaInfo filePath
          subtitles := (subtitleStreamsOf mediaInfo).enum.map mkSubtitleTrack
          audioTracks := (audioStreamsOf mediaInfo).enum.map mkAudioTrack }

/-! ## File prober (MediaService.probeFile) -/

/-- Outcome of one ffprobe invocation, as observed by probeFile's event
handlers: the file may be missing, the spawn may fail, or the process
exits with a code and a stdout that may or may not parse as MediaInfo. -/
inductive ProbeOutcome where
  | noFile
  | spawnError
  | exited (code : Int) (parsed : Option MediaInfo)
  deriving Repr, DecidableEq

/-- MediaService.probeFile, translated over a ProbeOutcome: resolves
`null` when the file is missing, the spawn errors, the exit code is
non-zero, or the stdout does not parse; otherwise the parsed MediaInfo. -/
def probeFile : ProbeOutcome → Option MediaInfo
  | ProbeOutcome.noFile => none
  | ProbeOutcome.spawnError => none
  | ProbeOutcome.exited code parsed => if code ≠ 0 then none else parsed

/-! ## Radarr side (getMoviePlayback) -/

/-- Movie file record of a Radarr movie (`movieFile` with its `path`). -/
structure MovieFile where
  path : String
  deriving Repr, DecidableEq

/-- Radarr movie record, with the fields getMoviePlayback reads. -/
structure RadarrMovie where
  title : String
  hasFile : Bool
  movieFile : Option MovieFile
  deriving Repr, DecidableEq

/-- Radarr collaborator plus the probe, as a deterministic environment. -/
structure RadarrEnv where
  movieByTmdb : Nat → Option RadarrMovie
  probe : String → Option MediaInfo

/-- The JS guard `!movie.hasFile || !movie.movieFile?.path`: true when the
movie lacks a file flag, the movieFile object, or a truthy (non-empty)
path. -/
def movieFileMissing (m : RadarrMovie) : Bool :=
  !m.hasFile ||
    (match m.movieFile with
     | none => true
     | some f => f.path = "")

/-- MediaService.getMoviePlayback, translated: Radarr lookup, the
no-file guard, then buildPlaybackInfo on the movie file's path. -/
def getMoviePlayback (env : RadarrEnv) (tmdbId : Nat) : Option PlaybackInfo :=
  match env.movieByTmdb tmdbId with
  | none => none
  | some movie =>
    if movieFileMissing movie then none
    else
      match movie.movieFile with
      | none => none
      | some f => buildPlaybackInfo (env.probe f.path) f.path movie.title ContentType.movie

/-! ## Sonarr side (getEpisodePlayback) -/

/-- Result of sonarrService.lookupSeriesByTmdbId, with the `tvdbId` the
code reads (0 models a falsy/absent tvdbId). -/
structure SonarrLookup where
  tvdbId : Nat
  deriving Repr, DecidableEq

/-- Sonarr series record, with the fields getEpisodePlayback reads. -/
structure SonarrSeries where
  id : Nat
  title : String
  deriving Repr, DecidableEq

/-- Sonarr episode record, with the fields getEpisodePlayback reads
(`episodeFileId` 0 models a falsy/absent file id). -/
structure SonarrEpisode where
  seasonNumber : Nat
  episodeNumber : Nat
  title : String
  hasFile : Bool
  episodeFileId : Nat
  deriving Repr, DecidableEq

/-- Sonarr collaborator plus the probe, as a deterministic environment:
getSeries, lookupSeriesByTmdbId, getSeriesByTvdbId, getEpisodes, and the
episodefile endpoint behind getEpisodeFilePath. -/
structure SonarrEnv where
  series : List SonarrSeries
  lookupByTmdb : Nat → Option SonarrLookup
  seriesByTvdb : Nat → Option SonarrSeries
  episodes : Nat → List SonarrEpisode
  episodeFilePath : Nat → Option String
  probe : String → Option MediaInfo

/-- The per-series loop of getEpisodePlayback: for each element of
`allSeries` it calls lookupSeriesByTmdbId(tmdbId); on a truthy lookup
with a truthy tvdbId it fetches the series by tvdbId and breaks. Returns
the selected series (still `none` when the loop never breaks or the
tvdb fetch misses) together with the number of lookup calls made. -/
def findSeriesLoop (env : SonarrEnv) (tmdbId : Nat) :
    List SonarrSeries → Option SonarrSeries × Nat
  | [] => (none, 0)
  | _ :: rest =>
    match env.lookupByTmdb tmdbId with
    | some lookup =>
      if lookup.tvdbId ≠ 0 then (env.seriesByTvdb lookup.tvdbId, 1)
      else
        let r := findSeriesLoop env tmdbId rest
        (r.1, r.2 + 1)
    | none =>
      let r := findSeriesLoop env tmdbId rest
      (r.1, r.2 + 1)

/-- Number of cross-reference lookup calls one getEpisodePlayback run
makes inside the per-series loop. -/
def lookupCallCount (env : SonarrEnv) (tmdbId : Nat) : Nat :=
  (findSeriesLoop env tmdbId env.series).2

/-- Models JS `String(n).padStart(2, '0')`. -/
def pad2 (n : Nat) : String :=
  let s := toString n
  if s.length < 2 then "0" ++ s else s

/-- Episode title string built by getEpisodePlayback. -/
def episodeTitle (series : SonarrSeries) (season episode : Nat) (ep : SonarrEpisode) : String :=
  series.title ++ " - S" ++ pad2 season ++ "E" ++ pad2 episode ++ " - " ++ ep.title

/-- MediaService.getEpisodePlayback, translated: the per-series loop,
episode matching by exact season and episode numbers, the no-file guard,
the episodefile path fetch (with JS falsy check on the returned path),
then buildPlaybackInfo. -/
def getEpisodePlayback (env : SonarrEnv) (tmdbId season episode : Nat) : Option PlaybackInfo :=
  match (findSeriesLoop env tmdbId env.series).1 with
  | none => none
  | some series =>
    match (env.episodes series.id).find?
        (fun ep => ep.seasonNumber == season && ep.episodeNumber == episode) with
    | none => none
    | some targetEpisode =>
      if !targetEpisode.hasFile || targetEpisode.episodeFileId = 0 then none
      else
        match env.episodeFilePath targetEpisode.episodeFileId with
        | none => none
        | some episodeFile =>
          if episodeFile = "" then none
          else
            buildPlaybackInfo (env.probe episodeFile) episodeFile
              (episodeTitle series season episode targetEpisode) ContentType.episode

/-! ## Spec-side predicates used to state the claims -/

/-- Spec-side statement of the compatibility classifier: the file has a
first audio stream whose codec, lower-cased, is in the allow-list. -/
def firstAudioCompatible (info : MediaInfo) : Bool :=
  match audioStreamOf info with
  | some s => BROWSER_COMPATIBLE_AUDIO.contains (toLowerCase s.codec_name)
  | none => false

/-- Probe results the spec calls not playable: the probe failed outright,
or the probed file has no video stream. -/
def probeNotPlayable (r : Option MediaInfo) : Prop :=
  r = none ∨ ∃ info, r = some info ∧ videoStreamOf info = none

/-- The probe-tool failure modes the claims list: the file is missing,
the tool cannot be spawned, it exits non-zero, or its output does not
parse. -/
def probeToolFailure : ProbeOutcome → Prop
  | ProbeOutcome.noFile => True
  | ProbeOutcome.spawnError => True
  | ProbeOutcome.exited code parsed => code ≠ 0 ∨ parsed = none

/-- What the per-series loop resolves to whenever it runs at least one
iteration: a single cross-reference lookup on the requested show id,
followed by the tvdb fetch on a truthy tvdbId. -/
def seriesSelect (env : SonarrEnv) (tmdbId : Nat) : Option SonarrSeries :=
  match env.lookupByTmdb tmdbId with
  | some lookup => if lookup.tvdbId ≠ 0 then env.seriesByTvdb lookup.tvdbId else none
  | none => none

/-! ## Client-side URL construction (src/unnamed/part_002) -/

/-- Subtitle URL the client media service builds for one subtitle track:
the streamIndex and the PlaybackInfo's filePath, percent-encoded as one
composite component. -/
def clientSubtitleUrl (sub : SubtitleTrack) (filePath : String) : String :=
  "/api/media/subtitle/" ++ encodeURIComponent (toString sub.streamIndex ++ ":" ++ filePath)

/-! ## Concrete fixtures for counterexamples and witnesses -/

/-- Fallback PlaybackInfo used only to name concrete successful results. -/
def emptyPlayback : PlaybackInfo :=
  { found := false
    title := ""
    type := ContentType.movie
    filePath := ""
    fileSize := 0
    duration := 0
    mediaInfo := { width := 0, height := 0, videoCodec := "", audioCodec := "", container := "" }
    needsTranscode := false
    streamUrl := ""
    subtitles := []
    audioTracks := [] }

/-- Probed video stream at container index 0. -/
def sampleVideo : MediaStream :=
  { index := 0, codec_name := "h264", codec_type := CodecType.video, width := some 1920,
    height := some 1080, channels := none, tags := none, dispositionDefault := false }

/-- Probed aac audio stream at container index 1. -/
def sampleAudioAac : MediaStream :=
  { index := 1, codec_name := "aac", codec_type := CodecType.audio, width := none,
    height := none, channels := some 2, tags := none, dispositionDefault := false }

/-- Probed eac3 audio stream at container index 1. -/
def sampleAudioEac3 : MediaStream :=
  { index := 1, codec_name := "eac3", codec_type := CodecType.audio, width := none,
    height := none, channels := some 6, tags := some { language := some "eng", title := none },
    dispositionDefault := false }

/-- Probed eac3 audio stream at container index 2 that the source marks
as the default track. -/
def sampleAudioDefaultAtTwo : MediaStream :=
  { index := 2, codec_name := "eac3", codec_type := CodecType.audio, width := none,
    height := none, channels := some 6, tags := some { language := some "fre", title := none },
    dispositionDefault := true }

/-- Probed English subtitle stream at container index 2. -/
def sampleSubEng : MediaStream :=
  { index := 2, codec_name := "subrip", codec_type := CodecType.subtitle, width := none,
    height := none, channels := none, tags := some { language := some "eng", title := none },
    dispositionDefault := false }

/-- Probed French subtitle stream at container index 3. -/
def sampleSubFre : MediaStream :=
  { index := 3, codec_name := "subrip", codec_type := CodecType.subtitle, width := none,
    height := none, channels := none, tags := some { language := some "fre", title := none },
    dispositionDefault := false }

/-- Container-level facts shared by the fixture files. -/
def sampleFormat : MediaFormat :=
  { filename := "v.mkv", format_name := "matroska", duration := "139.414000", size := "123456" }

/-- Fixture file with browser-compatible (aac) audio. -/
def infoAac : MediaInfo :=
  { format := sampleFormat, streams := [sampleVideo, sampleAudioAac] }

/-- Fixture file whose container stream indices have the usual shape:
video at 0, audio at 1, subtitles at 2 and 3. -/
def infoGaps : MediaInfo :=
  { format := sampleFormat, streams := [sampleVideo, sampleAudioEac3, sampleSubEng, sampleSubFre] }

/-- Fixture file with two audio streams where the source marks the
second one (container index 2) as the default track. -/
def infoDefaultSecond : MediaInfo :=
  { format := sampleFormat, streams := [sampleVideo, sampleAudioEac3, sampleAudioDefaultAtTwo] }

/-- Fixture file with a video stream and no audio stream. -/
def infoNoAudio : MediaInfo :=
  { format := sampleFormat, streams := [sampleVideo] }

/-- Radarr environment whose movie has a file but whose probe always
fails. -/
def envMovieProbeFail : RadarrEnv :=
  { movieByTmdb := fun _ => some { title := "T", hasFile := true, movieFile := some { path := "/m/v.mkv" } }
    probe := fun _ => none }

/-- Radarr environment whose movie exists without an associated file. -/
def envMovieNoFile : RadarrEnv :=
  { movieByTmdb := fun _ => some { title := "T", hasFile := false, movieFile := none }
    probe := fun _ => some infoAac }

/-- Radarr environment where everything succeeds. -/
def envMovieOk : RadarrEnv :=
  { movieByTmdb := fun _ => some { title := "T", hasFile := true, movieFile := some { path := "/m/a b.mkv" } }
    probe := fun _ => some infoGaps }

/-- Sonarr series fixture. -/
def sampleSeries : SonarrSeries := { id := 7, title := "S" }

/-- Sonarr episode fixture with a file. -/
def sampleEpisodeOk : SonarrEpisode :=
  { seasonNumber := 1, episodeNumber := 1, title := "E", hasFile := true, episodeFileId := 3 }

/-- Sonarr episode fixture without a file. -/
def sampleEpisodeNoFile : SonarrEpisode :=
  { seasonNumber := 1, episodeNumber := 1, title := "E", hasFile := false, episodeFileId := 0 }

/-- Sonarr environment that resolves the series and episode but whose
probe always fails. -/
def envEpisodeProbeFail : SonarrEnv :=
  { series := [sampleSeries]
    lookupByTmdb := fun _ => some { tvdbId := 9 }
    seriesByTvdb := fun _ => some sampleSeries
    episodes := fun _ => [sampleEpisodeOk]
    episodeFilePath := fun _ => some "/tv/e.mkv"
    probe := fun _ => none }

/-- Sonarr environment whose matching episode has no file. -/
def envEpisodeNoFile : SonarrEnv :=
  { series := [sampleSeries]
    lookupByTmdb := fun _ => some { tvdbId := 9 }
    seriesByTvdb := fun _ => some sampleSeries
    episodes := fun _ => [sampleEpisodeNoFile]
    episodeFilePath := fun _ => some "/tv/e.mkv"
    probe := fun _ => some infoAac }

/-- Sonarr environment whose cross-reference lookup finds nothing. -/
def envEpisodeLookupMiss : SonarrEnv :=
  { series := [sampleSeries]
    lookupByTmdb := fun _ => none
    seriesByTvdb := fun _ => some sampleSeries
    episodes := fun _ => [sampleEpisodeOk]
    episodeFilePath := fun _ => some "/tv/e.mkv"
    probe := fun _ => some infoAac }

/-- Sonarr environment with an empty series list. -/
def envEpisodeEmptySeries : SonarrEnv :=
  { series := []
    lookupByTmdb := fun _ => some { tvdbId := 9 }
    seriesByTvdb := fun _ => some sampleSeries
    episodes := fun _ => [sampleEpisodeOk]
    episodeFilePath := fun _ => some "/tv/e.mkv"
    probe := fun _ => some infoAac }

/-- Sonarr environment where everything succeeds. -/
def envEpisodeOk : SonarrEnv :=
  { series := [sampleSeries]
    lookupByTmdb := fun _ => some { tvdbId := 9 }
    seriesByTvdb := fun _ => some sampleSeries
    episodes := fun _ => [sampleEpisodeOk]
    episodeFilePath := fun _ => some "/tv/e.mkv"
    probe := fun _ => some infoAac }

/-- The successful movie playback of envMovieOk, as a named value. -/
def playbackMovieOk : PlaybackInfo :=
  (getMoviePlayback envMovieOk 550).getD emptyPlayback

/-- The successful episode playback of envEpisodeOk, as a named value. -/
def playbackEpisodeOk : PlaybackInfo :=
  (getEpisodePlayback envEpisodeOk 1399 1 1).getD emptyPlayback

/-- The playback built for the aac fixture, as a named value. -/
def playbackAac : PlaybackInfo :=
  (buildPlaybackInfo (some infoAac) "/m/v.mkv" "T" ContentType.movie).getD emptyPlayback

/-- The playback built for the gapped-index fixture, as a named value. -/
def playbackGaps : PlaybackInfo :=
  (buildPlaybackInfo (some infoGaps) "/m/a b.mkv" "T" ContentType.movie).getD emptyPlayback

/-- The playback built for the default-marked-second-audio fixture. -/
def playbackDefaultSecond : PlaybackInfo :=
  (buildPlaybackInfo (some infoDefaultSecond) "/m/v.mkv" "T" ContentType.movie).getD emptyPlayback

/-- The playback built for the no-audio fixture, as a named value. -/
def playbackNoAudio : PlaybackInfo :=
  (buildPlaybackInfo (some infoNoAudio) "/m/v.mkv" "T" ContentType.movie).getD emptyPlayback

/-! ## Helper lemmas shared by the claim theorems -/

theorem buildPlaybackInfo_some (info : MediaInfo) (fp t : String) (ty : ContentType)
    (v : MediaStream) (hv : videoStreamOf info = some v) :
    buildPlaybackInfo (some info) fp t ty = some
      { found := true
        title := t
        type := ty
        filePath := fp
        fileSize := parseIntOr0 info.format.size
        duration := parseDurationMs info.format.duration
        mediaInfo :=
          { width := jsOrNat v.width 0
            height := jsOrNat v.height 0
            videoCodec := v.codec_name
            audioCodec := audioCodecOf info
            container := containerOf fp }
        needsTranscode := needsTranscodeOf info
        streamUrl := streamUrlOf info fp
        subtitles := (subtitleStreamsOf info).enum.map mkSubtitleTrack
        audioTracks := (audioStreamsOf info).enum.map mkAudioTrack } := by
  simp only [buildPlaybackInfo, hv]

theorem buildPlaybackInfo_no_video (info : MediaInfo) (fp t : String) (ty : ContentType)
    (hv : videoStreamOf info = none) :
    buildPlaybackInfo (some info) fp t ty = none := by
  simp only [buildPlaybackInfo, hv]

theorem buildPlaybackInfo_exists_video (info : MediaInfo) (fp t : String) (ty : ContentType)
    (p : PlaybackInfo) (h : buildPlaybackInfo (some info) fp t ty = some p) :
    ∃ v, videoStreamOf info = some v := by
  cases hv : videoStreamOf info with
  | none =>
    rw [buildPlaybackInfo_no_video info fp t ty hv] at h
    cases h
  | some v => exact ⟨v, rfl⟩

theorem buildPlaybackInfo_not_playable (r : Option MediaInfo) (fp t : String)
    (ty : ContentType) (h : probeNotPlayable r) :
    buildPlaybackInfo r fp t ty = none := by
  rcases h with h | ⟨info, rfl, hnv⟩
  · rw [h]; rfl
  · exact buildPlaybackInfo_no_video info fp t ty hnv

theorem buildPlaybackInfo_filePath (r : Option MediaInfo) (fp t : String) (ty : ContentType)
    (p : PlaybackInfo) (h : buildPlaybackInfo r fp t ty = some p) : p.filePath = fp := by
  cases r with
  | none => cases h
  | some info =>
    obtain ⟨v, hv⟩ := buildPlaybackInfo_exists_video info fp t ty p h
    rw [buildPlaybackInfo_some info fp t ty v hv] at h
    cases Option.some.inj h
    rfl

theorem audioStreamOf_eq_none_iff (info : MediaInfo) :
    audioStreamOf info = none ↔ audioStreamsOf info = [] := by
  unfold audioStreamOf audioStreamsOf
  rw [List.find?_eq_none, List.filter_eq_nil_iff]

theorem needsTranscodeOf_eq_not_compatible (info : MediaInfo) :
    needsTranscodeOf info = !firstAudioCompatible info := by
  unfold needsTranscodeOf firstAudioCompatible audioCodecOf
  cases ha : audioStreamOf info with
  | none =>
    show (!( BROWSER_COMPATIBLE_AUDIO.contains (toLowerCase (jsOrStr none "unknown")))) = !false
    decide
  | some s =>
    show (!( BROWSER_COMPATIBLE_AUDIO.contains
        (toLowerCase (jsOrStr (some s.codec_name) "unknown"))))
      = !( BROWSER_COMPATIBLE_AUDIO.contains (toLowerCase s.codec_name))
    by_cases hc : s.codec_name = ""
    · rw [hc]
      decide
    · simp only [jsOrStr]
      rw [if_neg hc]

theorem enum_map_fst_of_comm {β : Type} (f : Nat × MediaStream → β) (g : β → Nat)
    (l : List MediaStream) (hfg : ∀ q, g (f q) = q.1) :
    (l.enum.map f).map g = List.range l.length := by
  rw [List.map_map, show g ∘ f = Prod.fst from funext hfg, List.enum_map_fst]

theorem enum_map_snd_of_comm {β γ : Type} (f : Nat × MediaStream → β) (g : β → γ)
    (h2 : MediaStream → γ) (l : List MediaStream) (hfg : ∀ q, g (f q) = h2 q.2) :
    (l.enum.map f).map g = l.map h2 := by
  rw [List.map_map, show g ∘ f = h2 ∘ Prod.snd from funext hfg, ← List.map_map,
    List.enum_map_snd]

theorem countP_zero_in_range (m : Nat) :
    List.countP (fun i => i == 0) (List.range (m + 1)) = 1 := by
  rw [List.range_succ_eq_map, List.countP_cons]
  have hz : List.countP (fun i => i == 0) ((List.range m).map Nat.succ) = 0 := by
    rw [List.countP_map]
    exact List.countP_eq_zero.mpr (fun a _ => by simp [Function.comp])
  simp [hz]

theorem findSeriesLoop_cons (env : SonarrEnv) (tmdbId : Nat) (a : SonarrSeries)
    (rest : List SonarrSeries) :
    findSeriesLoop env tmdbId (a :: rest) =
      match env.lookupByTmdb tmdbId with
      | some lookup =>
        if lookup.tvdbId ≠ 0 then (env.seriesByTvdb lookup.tvdbId, 1)
        else ((findSeriesLoop env tmdbId rest).1, (findSeriesLoop env tmdbId rest).2 + 1)
      | none => ((findSeriesLoop env tmdbId rest).1, (findSeriesLoop env tmdbId rest).2 + 1) :=
  rfl

theorem findSeriesLoop_fst_of_ne_nil (env : SonarrEnv) (tmdbId : Nat)
    (l : List SonarrSeries) (hl : l ≠ []) :
    (findSeriesLoop env tmdbId l).1 = seriesSelect env tmdbId := by
  induction l with
  | nil => exact absurd rfl hl
  | cons a rest ih =>
    rw [findSeriesLoop_cons]
    unfold seriesSelect
    cases hk : env.lookupByTmdb tmdbId with
    | none =>
      cases rest with
      | nil => simp [findSeriesLoop]
      | cons b rest2 =>
        have ih2 := ih (by simp)
        unfold seriesSelect at ih2
        rw [hk] at ih2
        simpa using ih2
    | some lookup =>
      by_cases ht : lookup.tvdbId ≠ 0
      · simp [ht]
      · simp only [if_neg ht]
        cases rest with
        | nil => simp [findSeriesLoop]
        | cons b rest2 =>
          have ih2 := ih (by simp)
          unfold seriesSelect at ih2
          rw [hk] at ih2
          simp only [if_neg ht] at ih2
          simpa using ih2

/-! ## Claim theorems -/

/-- C1: for every file whose probe succeeds (and that is playable at
all, i.e. buildPlaybackInfo returns a PlaybackInfo), the strategy is
direct (needsTranscode = false) exactly when the first audio stream's
codec, compared case-insensitively, is in the fixed browser-compatible
allow-list; for every other audio codec (including a missing or empty
one) the strategy is transcode. -/
theorem c1_direct_iff_compatible (info : MediaInfo) (fp t : String) (ty : ContentType)
    (p : PlaybackInfo) (h : buildPlaybackInfo (some info) fp t ty = some p) :
    p.needsTranscode = false ↔ firstAudioCompatible info = true := by
  obtain ⟨v, hv⟩ := buildPlaybackInfo_exists_video info fp t ty p h
  rw [buildPlaybackInfo_some info fp t ty v hv] at h
  cases Option.some.inj h
  show needsTranscodeOf info = false ↔ firstAudioCompatible info = true
  rw [needsTranscodeOf_eq_not_compatible]
  cases firstAudioCompatible info <;> simp

/-- Witness for C1 at the aac fixture file. -/
theorem c1_witness :
    playbackAac.needsTranscode = false ↔ firstAudioCompatible infoAac = true :=
  c1_direct_iff_compatible infoAac "/m/v.mkv" "T" ContentType.movie playbackAac rfl

/-- C8: the mediaInfo.container of every built PlaybackInfo is computed
from the file path's extension (with fallback "mkv" when the extension
is empty) and is independent of everything the probe reports in the
format block — in particular it is extension-derived when the probe does
not report a container type explicitly. -/
theorem c8_container_from_extension (info : MediaInfo) (fp t : String) (ty : ContentType)
    (p : PlaybackInfo) (h : buildPlaybackInfo (some info) fp t ty = some p) :
    p.mediaInfo.container = (if (extname fp).drop 1 = "" then "mkv" else (extname fp).drop 1) ∧
    ∀ fmt : MediaFormat,
      (buildPlaybackInfo (some { info with format := fmt }) fp t ty).map
        (fun q => q.mediaInfo.container) = some p.mediaInfo.container := by
  obtain ⟨v, hv⟩ := buildPlaybackInfo_exists_video info fp t ty p h
  rw [buildPlaybackInfo_some info fp t ty v hv] at h
  cases Option.some.inj h
  constructor
  · rfl
  · intro fmt
    have hv2 : videoStreamOf { info with format := fmt } = some v := hv
    rw [buildPlaybackInfo_some { info with format := fmt } fp t ty v hv2]
    rfl

/-- Witness for C8 at the gapped-index fixture file. -/
theorem c8_witness :
    playbackGaps.mediaInfo.container =
      (if (extname "/m/a b.mkv").drop 1 = "" then "mkv" else (extname "/m/a b.mkv").drop 1) ∧
    ∀ fmt : MediaFormat,
      (buildPlaybackInfo (some { infoGaps with format := fmt }) "/m/a b.mkv" "T"
          ContentType.movie).map (fun q => q.mediaInfo.container)
        = some playbackGaps.mediaInfo.container :=
  c8_container_from_extension infoGaps "/m/a b.mkv" "T" ContentType.movie playbackGaps rfl

/-- C9: a probed file with a video stream and no audio stream still
yields a found PlaybackInfo whose audioTracks list is empty (so no track
is selected), whose mediaInfo.audioCodec is the literal "unknown", and
whose needsTranscode flag is true. -/
theorem c9_video_without_audio (info : MediaInfo) (fp t : String) (ty : ContentType)
    (v : MediaStream) (hv : videoStreamOf info = some v) (ha : audioStreamsOf info = []) :
    ∃ p, buildPlaybackInfo (some info) fp t ty = some p ∧ p.found = true ∧
      p.audioTracks = [] ∧ (∀ tr ∈ p.audioTracks, tr.selected = false) ∧
      p.mediaInfo.audioCodec = "unknown" ∧ p.needsTranscode = true := by
  have hnone : audioStreamOf info = none := (audioStreamOf_eq_none_iff info).mpr ha
  have htracks : (audioStreamsOf info).enum.map mkAudioTrack = [] := by
    rw [ha]; rfl
  refine ⟨_, buildPlaybackInfo_some info fp t ty v hv, rfl, htracks, ?_, ?_, ?_⟩
  · intro tr htr
    rw [htracks] at htr
    cases htr
  · show audioCodecOf info = "unknown"
    unfold audioCodecOf
    rw [hnone]
    rfl
  · show needsTranscodeOf info = true
    rw [needsTranscodeOf_eq_not_compatible]
    unfold firstAudioCompatible
    rw [hnone]
    rfl

/-- Witness for C9 at the video-only fixture file. -/
theorem c9_witness :
    ∃ p, buildPlaybackInfo (some infoNoAudio) "/m/v.mkv" "T" ContentType.movie = some p ∧
      p.found = true ∧ p.audioTracks = [] ∧ (∀ tr ∈ p.audioTracks, tr.selected = false) ∧
      p.mediaInfo.audioCodec = "unknown" ∧ p.needsTranscode = true :=
  c9_video_without_audio infoNoAudio "/m/v.mkv" "T" ContentType.movie sampleVideo rfl rfl

/-- C2 counterexample: for the gapped-index fixture (video at container
index 0, audio at 1, subtitles at 2 and 3) the built track `id` values
are the container stream indices — [1] for audio and [2, 3] for
subtitles — not the dense 0-based sequences [0] and [0, 1] the claim
requires (List.range 1 and List.range 2). -/
theorem c2_counterexample :
    (buildPlaybackInfo (some infoGaps) "/m/a b.mkv" "T" ContentType.movie).map
        (fun p => (p.audioTracks.map AudioTrack.id, p.subtitles.map SubtitleTrack.id,
          p.audioTracks.length, p.subtitles.length))
      = some ([1], [2, 3], 1, 2) ∧
    ¬ ([1] = List.range 1 ∧ [2, 3] = List.range 2) :=
  ⟨rfl, by decide⟩

/-- C2 (amended): for every probed file, the `streamIndex` values of the
AudioTrack and SubtitleTrack lists form dense 0-based sequences with no
gaps or duplicates, regardless of gaps in the container's stream
indices, while each track's `id` field carries the container's original
stream index alongside it. (The source assigns the two fields the other
way around from the claim: `id` holds the container index and
`streamIndex` the dense re-index.) -/
theorem c2_amended_dense_streamIndex (info : MediaInfo) (fp t : String) (ty : ContentType)
    (p : PlaybackInfo) (h : buildPlaybackInfo (some info) fp t ty = some p) :
    p.audioTracks.map AudioTrack.streamIndex = List.range p.audioTracks.length ∧
    p.subtitles.map SubtitleTrack.streamIndex = List.range p.subtitles.length ∧
    p.audioTracks.map AudioTrack.id = (audioStreamsOf info).map MediaStream.index ∧
    p.subtitles.map SubtitleTrack.id = (subtitleStreamsOf info).map MediaStream.index := by
  obtain ⟨v, hv⟩ := buildPlaybackInfo_exists_video info fp t ty p h
  rw [buildPlaybackInfo_some info fp t ty v hv] at h
  cases Option.some.inj h
  refine ⟨?_, ?_, ?_, ?_⟩
  · show ((audioStreamsOf info).enum.map mkAudioTrack).map AudioTrack.streamIndex
      = List.range ((audioStreamsOf info).enum.map mkAudioTrack).length
    rw [List.length_map, List.enum_length]
    exact enum_map_fst_of_comm mkAudioTrack AudioTrack.streamIndex _ (fun q => rfl)
  · show ((subtitleStreamsOf info).enum.map mkSubtitleTrack).map SubtitleTrack.streamIndex
      = List.range ((subtitleStreamsOf info).enum.map mkSubtitleTrack).length
    rw [List.length_map, List.enum_length]
    exact enum_map_fst_of_comm mkSubtitleTrack SubtitleTrack.streamIndex _ (fun q => rfl)
  · exact enum_map_snd_of_comm mkAudioTrack AudioTrack.id MediaStream.index _ (fun q => rfl)
  · exact enum_map_snd_of_comm mkSubtitleTrack SubtitleTrack.id MediaStream.index _ (fun q => rfl)

/-- Witness for the amended C2 at the gapped-index fixture file. -/
theorem c2_witness :
    playbackGaps.audioTracks.map AudioTrack.streamIndex
      = List.range playbackGaps.audioTracks.length ∧
    playbackGaps.subtitles.map SubtitleTrack.streamIndex
      = List.range playbackGaps.subtitles.length ∧
    playbackGaps.audioTracks.map AudioTrack.id = (audioStreamsOf infoGaps).map MediaStream.index ∧
    playbackGaps.subtitles.map SubtitleTrack.id
      = (subtitleStreamsOf infoGaps).map MediaStream.index :=
  c2_amended_dense_streamIndex infoGaps "/m/a b.mkv" "T" ContentType.movie playbackGaps rfl

/-- C3 counterexample: in the fixture whose source-marked default audio
stream is the second one (container index 2), the built PlaybackInfo
still selects the first audio track (container index 1) and leaves the
default-marked one unselected, so the selected track is not the
source-marked default the claim requires. -/
theorem c3_counterexample :
    ((audioStreamsOf infoDefaultSecond).filter (fun s => s.dispositionDefault)).map
        MediaStream.index = [2] ∧
    (buildPlaybackInfo (some infoDefaultSecond) "/m/v.mkv" "T" ContentType.movie).map
        (fun p => p.audioTracks.map (fun tr => (tr.id, tr.selected)))
      = some [(1, true), (2, false)] :=
  ⟨rfl, rfl⟩

/-- C3 (amended): whenever a probed file has at least one audio stream,
exactly one AudioTrack in the returned PlaybackInfo has selected = true,
and it is always the first audio track — a source-marked default track
other than the first is ignored. -/
theorem c3_amended_first_always_selected (info : MediaInfo) (fp t : String) (ty : ContentType)
    (p : PlaybackInfo) (h : buildPlaybackInfo (some info) fp t ty = some p) :
    p.audioTracks.map AudioTrack.selected
      = (List.range (audioStreamsOf info).length).map (fun i => i == 0) ∧
    (p.audioTracks ≠ [] → p.audioTracks.countP (fun tr => tr.selected) = 1) := by
  obtain ⟨v, hv⟩ := buildPlaybackInfo_exists_video info fp t ty p h
  rw [buildPlaybackInfo_some info fp t ty v hv] at h
  cases Option.some.inj h
  have hmap : ((audioStreamsOf info).enum.map mkAudioTrack).map AudioTrack.selected
      = (List.range (audioStreamsOf info).length).map (fun i => i == 0) := by
    rw [List.map_map,
      show AudioTrack.selected ∘ mkAudioTrack = ((fun i => i == 0) ∘ Prod.fst) from rfl,
      ← List.map_map, List.enum_map_fst]
  refine ⟨hmap, ?_⟩
  intro hne
  cases hn : (audioStreamsOf info).length with
  | zero =>
    exfalso
    apply hne
    show (audioStreamsOf info).enum.map mkAudioTrack = []
    rw [List.length_eq_zero.mp hn]
    rfl
  | succ m =>
    have h1 : List.countP (fun tr => tr.selected)
        ((audioStreamsOf info).enum.map mkAudioTrack)
        = List.countP (fun b => b)
          (((audioStreamsOf info).enum.map mkAudioTrack).map AudioTrack.selected) := by
      rw [List.countP_map, List.countP_map, List.countP_map]
      rfl
    show List.countP (fun tr => tr.selected) ((audioStreamsOf info).enum.map mkAudioTrack) = 1
    rw [h1, hmap, hn, List.countP_map]
    exact countP_zero_in_range m

/-- Witness for the amended C3 at the default-marked-second fixture. -/
theorem c3_witness :
    playbackDefaultSecond.audioTracks.map AudioTrack.selected
      = (List.range (audioStreamsOf infoDefaultSecond).length).map (fun i => i == 0) ∧
    (playbackDefaultSecond.audioTracks ≠ [] →
      playbackDefaultSecond.audioTracks.countP (fun tr => tr.selected) = 1) :=
  c3_amended_first_always_selected infoDefaultSecond "/m/v.mkv" "T" ContentType.movie
    playbackDefaultSecond rfl

/-- C4: whenever the probe tool fails (file missing, spawn error,
non-zero exit, or unparseable output) probeFile resolves null, and
whenever probing yields no usable result or a file without a video
stream, getMoviePlayback and getEpisodePlayback return null rather than
raising. -/
theorem c4_probe_failure_not_playable :
    (∀ oc : ProbeOutcome, probeToolFailure oc → probeFile oc = none) ∧
    (∀ (env : RadarrEnv) (tmdbId : Nat), (∀ path, probeNotPlayable (env.probe path)) →
      getMoviePlayback env tmdbId = none) ∧
    (∀ (env : SonarrEnv) (tmdbId season episode : Nat),
      (∀ path, probeNotPlayable (env.probe path)) →
      getEpisodePlayback env tmdbId season episode = none) := by
  refine ⟨?_, ?_, ?_⟩
  · intro oc hf
    cases oc with
    | noFile => rfl
    | spawnError => rfl
    | exited code parsed =>
      show (if code ≠ 0 then none else parsed) = none
      rcases hf with hc | hp
      · rw [if_pos hc]
      · by_cases hc : code ≠ 0
        · rw [if_pos hc]
        · rw [if_neg hc, hp]
  · intro env tmdbId hp
    unfold getMoviePlayback
    split
    · rfl
    · split
      · rfl
      · split
        · rfl
        · exact buildPlaybackInfo_not_playable _ _ _ _ (hp _)
  · intro env tmdbId season episode hp
    unfold getEpisodePlayback
    split
    · rfl
    · split
      · rfl
      · split
        · rfl
        · split
          · rfl
          · split
            · rfl
            · exact buildPlaybackInfo_not_playable _ _ _ _ (hp _)

/-- Witness for C4 with a missing file and environments whose probes
always fail. -/
theorem c4_witness :
    probeFile ProbeOutcome.noFile = none ∧
    getMoviePlayback envMovieProbeFail 550 = none ∧
    getEpisodePlayback envEpisodeProbeFail 1399 1 1 = none :=
  ⟨c4_probe_failure_not_playable.1 ProbeOutcome.noFile trivial,
   c4_probe_failure_not_playable.2.1 envMovieProbeFail 550 (fun _ => Or.inl rfl),
   c4_probe_failure_not_playable.2.2 envEpisodeProbeFail 1399 1 1 (fun _ => Or.inl rfl)⟩

/-- C5: a title that exists in the library manager but has no associated
file resolves to not-found (null) for both entry points, and no returned
PlaybackInfo ever carries an empty file path. -/
theorem c5_missing_file_not_found :
    (∀ (env : RadarrEnv) (tmdbId : Nat) (m : RadarrMovie),
      env.movieByTmdb tmdbId = some m →
      (m.hasFile = false ∨ m.movieFile = none ∨ ∃ f, m.movieFile = some f ∧ f.path = "") →
      getMoviePlayback env tmdbId = none) ∧
    (∀ (env : SonarrEnv) (tmdbId season episode : Nat) (ser : SonarrSeries)
      (ep : SonarrEpisode),
      (findSeriesLoop env tmdbId env.series).1 = some ser →
      (env.episodes ser.id).find?
          (fun e2 => e2.seasonNumber == season && e2.episodeNumber == episode) = some ep →
      (ep.hasFile = false ∨ ep.episodeFileId = 0) →
      getEpisodePlayback env tmdbId season episode = none) ∧
    (∀ (env : RadarrEnv) (tmdbId : Nat) (p : PlaybackInfo),
      getMoviePlayback env tmdbId = some p → p.filePath ≠ "") ∧
    (∀ (env : SonarrEnv) (tmdbId season episode : Nat) (p : PlaybackInfo),
      getEpisodePlayback env tmdbId season episode = some p → p.filePath ≠ "") := by
  refine ⟨?_, ?_, ?_, ?_⟩
  · intro env tmdbId m hm hnofile
    have hmiss : movieFileMissing m = true := by
      unfold movieFileMissing
      rcases hnofile with h1 | h2 | ⟨f, hf, hp⟩
      · rw [h1]; rfl
      · rw [h2]; simp
      · rw [hf]; simp [hp]
    simp only [getMoviePlayback, hm, hmiss]
    rfl
  · intro env tmdbId season episode ser ep hser hep hnofile
    have hguard : (!ep.hasFile || ep.episodeFileId = 0 : Bool) = true := by
      rcases hnofile with h1 | h2
      · rw [h1]; rfl
      · simp [h2]
    simp only [getEpisodePlayback, hser, hep, hguard]
    rfl
  · intro env tmdbId p h
    unfold getMoviePlayback at h
    split at h
    · cases h
    · rename_i movie hm
      split at h
      · cases h
      · rename_i hmiss
        split at h
        · cases h
        · rename_i f hf
          have hpath : p.filePath = f.path := buildPlaybackInfo_filePath _ _ _ _ _ h
          have hne : ¬ f.path = "" := by
            unfold movieFileMissing at hmiss
            rw [hf] at hmiss
            simp at hmiss
            exact hmiss.2
          rw [hpath]
          exact hne
  · intro env tmdbId season episode p h
    unfold getEpisodePlayback at h
    split at h
    · cases h
    · split at h
      · cases h
      · split at h
        · cases h
        · split at h
          · cases h
          · rename_i episodeFile hfp
            split at h
            · cases h
            · rename_i hne
              rw [buildPlaybackInfo_filePath _ _ _ _ _ h]
              exact hne

/-- Witness for C5: a movie and an episode without files resolve to
null, and the successful fixtures carry non-empty paths. -/
theorem c5_witness :
    getMoviePlayback envMovieNoFile 550 = none ∧
    getEpisodePlayback envEpisodeNoFile 1399 1 1 = none ∧
    playbackMovieOk.filePath ≠ "" ∧
    playbackEpisodeOk.filePath ≠ "" :=
  ⟨c5_missing_file_not_found.1 envMovieNoFile 550 _ rfl (Or.inl rfl),
   c5_missing_file_not_found.2.1 envEpisodeNoFile 1399 1 1 sampleSeries sampleEpisodeNoFile
     rfl rfl (Or.inl rfl),
   c5_missing_file_not_found.2.2.1 envMovieOk 550 playbackMovieOk rfl,
   c5_missing_file_not_found.2.2.2 envEpisodeOk 1399 1 1 playbackEpisodeOk rfl⟩

/-- C6: when the library manager's catalog-cross-reference lookup fails
to find a matching series for the requested show id (no lookup result, a
falsy tvdbId, or no series behind the tvdbId), getEpisodePlayback
returns not-found (null) and does not raise. -/
theorem c6_lookup_miss_not_found (env : SonarrEnv) (tmdbId season episode : Nat)
    (h : env.lookupByTmdb tmdbId = none ∨
      ∃ lk, env.lookupByTmdb tmdbId = some lk ∧
        (lk.tvdbId = 0 ∨ env.seriesByTvdb lk.tvdbId = none)) :
    getEpisodePlayback env tmdbId season episode = none := by
  have hsel : seriesSelect env tmdbId = none := by
    unfold seriesSelect
    rcases h with hk | ⟨lk, hk, hz | hs⟩
    · rw [hk]
    · rw [hk]; simp [hz]
    · rw [hk]
      by_cases ht : lk.tvdbId ≠ 0
      · simp [ht, hs]
      · simp [ht]
  have hloop : (findSeriesLoop env tmdbId env.series).1 = none := by
    cases hl : env.series with
    | nil => rfl
    | cons a rest =>
      rw [← hsel, ← hl]
      rw [hl]
      exact findSeriesLoop_fst_of_ne_nil env tmdbId (a :: rest) (by simp)
  simp only [getEpisodePlayback, hloop]

/-- Witness for C6 at the lookup-miss environment. -/
theorem c6_witness : getEpisodePlayback envEpisodeLookupMiss 1399 1 1 = none :=
  c6_lookup_miss_not_found envEpisodeLookupMiss 1399 1 1 (Or.inl rfl)

/-- C7 counterexample: the PlaybackInfo returned to the client carries
the resolved raw filesystem path in its filePath field; for a path with
a space the raw value differs from its percent-encoding, so the raw path
is exposed to the browser unencoded rather than only wrapped behind the
opaque stream URL. -/
theorem c7_counterexample :
    (buildPlaybackInfo (some infoGaps) "/m/a b.mkv" "T" ContentType.movie).map
        PlaybackInfo.filePath = some "/m/a b.mkv" ∧
    encodeURIComponent "/m/a b.mkv" ≠ "/m/a b.mkv" :=
  ⟨rfl, by decide⟩

/-- C7 (amended): every client-visible stream URL and every client-built
subtitle URL embeds the resolved path only percent-encoded, and the
PlaybackInfo's filePath field equals the raw resolved path — so the raw
path is exposed in the PlaybackInfo body itself, not only behind the
opaque stream URL. -/
theorem c7_amended_urls_encode_path (info : MediaInfo) (fp t : String) (ty : ContentType)
    (p : PlaybackInfo) (h : buildPlaybackInfo (some info) fp t ty = some p) :
    (p.streamUrl = "/api/media/transcode/" ++ encodeURIComponent fp ∨
      p.streamUrl = "/api/media/stream/" ++ encodeURIComponent fp) ∧
    (∀ sub, clientSubtitleUrl sub p.filePath
      = "/api/media/subtitle/" ++ encodeURIComponent (toString sub.streamIndex ++ ":" ++ fp)) ∧
    p.filePath = fp := by
  obtain ⟨v, hv⟩ := buildPlaybackInfo_exists_video info fp t ty p h
  rw [buildPlaybackInfo_some info fp t ty v hv] at h
  cases Option.some.inj h
  refine ⟨?_, fun sub => rfl, rfl⟩
  show streamUrlOf info fp = _ ∨ streamUrlOf info fp = _
  unfold streamUrlOf
  by_cases hnt : needsTranscodeOf info = true
  · left; rw [if_pos hnt]
  · right; rw [if_neg hnt]

/-- Witness for the amended C7 at the gapped-index fixture. -/
theorem c7_witness :
    (playbackGaps.streamUrl = "/api/media/transcode/" ++ encodeURIComponent "/m/a b.mkv" ∨
      playbackGaps.streamUrl = "/api/media/stream/" ++ encodeURIComponent "/m/a b.mkv") ∧
    (∀ sub, clientSubtitleUrl sub playbackGaps.filePath
      = "/api/media/subtitle/"
        ++ encodeURIComponent (toString sub.streamIndex ++ ":" ++ "/m/a b.mkv")) ∧
    playbackGaps.filePath = "/m/a b.mkv" :=
  c7_amended_urls_encode_path infoGaps "/m/a b.mkv" "T" ContentType.movie playbackGaps rfl

/-- C10: with an empty series list getEpisodePlayback returns null and
performs zero cross-reference lookup calls; with any non-empty series
list, the series the per-series loop selects depends only on the
requested show id (and the deterministic collaborators), not on which
series are in the list. -/
theorem c10_series_list_independence :
    (∀ (env : SonarrEnv) (tmdbId season episode : Nat), env.series = [] →
      getEpisodePlayback env tmdbId season episode = none ∧ lookupCallCount env tmdbId = 0) ∧
    (∀ (env : SonarrEnv) (tmdbId : Nat) (l1 l2 : List SonarrSeries), l1 ≠ [] → l2 ≠ [] →
      (findSeriesLoop env tmdbId l1).1 = (findSeriesLoop env tmdbId l2).1) := by
  constructor
  · intro env tmdbId season episode he
    constructor
    · simp only [getEpisodePlayback, he, findSeriesLoop]
    · unfold lookupCallCount
      rw [he]
      rfl
  · intro env tmdbId l1 l2 h1 h2
    rw [findSeriesLoop_fst_of_ne_nil env tmdbId l1 h1,
      findSeriesLoop_fst_of_ne_nil env tmdbId l2 h2]

/-- Witness for C10 at the empty-series environment and two concrete
non-empty lists. -/
theorem c10_witness :
    (getEpisodePlayback envEpisodeEmptySeries 1399 1 1 = none ∧
      lookupCallCount envEpisodeEmptySeries 1399 = 0) ∧
    (findSeriesLoop envEpisodeOk 1399 [sampleSeries]).1
      = (findSeriesLoop envEpisodeOk 1399 [sampleSeries, sampleSeries]).1 :=
  ⟨c10_series_list_independence.1 envEpisodeEmptySeries 1399 1 1 rfl,
   c10_series_list_independence.2 envEpisodeOk 1399 [sampleSeries]
     [sampleSeries, sampleSeries] (by simp) (by simp)⟩

end MyCinema
